import Mathlib

/-!
Shallow embedding of `src/goblin/gremlin_python_driver/driver.py`.

The pool (`Driver`) state is the counters and the reclaimed deque; the
`Connection` objects carry the flags the pool and the response stream
inspect.  Python integers are modelled as `Int` (the counters are
decremented without a lower bound in the source), byte strings as
`List Nat`, and Python exceptions as a `PyError` sum returned through
`Except`.  Operations that mutate state return the result paired with the
state left behind, on the error path as well, mirroring the fact that a
raised exception does not roll back prior mutations.
-/

set_option autoImplicit false

/-- Python exceptions raised (or raisable) by the driver code. -/
inductive PyError where
  | runtimeError (msg : String)
  | valueError (msg : String)
  | attributeError (msg : String)
  | unboundLocalError (msg : String)
  | transportError (msg : String)
deriving Repr, DecidableEq

/-- The observable state of a `Connection` object: its `_closed` flag, the
`_force_close` / `_recycle` pool-return flags, and whether its `_driver`
back-reference still points at the owning pool (`None` is modelled as
`has_driver = false`). -/
structure Connection where
  closed : Bool
  force_close : Bool
  recycle : Bool
  has_driver : Bool
deriving Repr, DecidableEq

/-- The mutable pool state of a `Driver`: the reclaimed deque and the
counters set up in `Driver.__init__` (`_max_connections = 32`,
`_max_inflight_messages = 128`). -/
structure DriverState where
  reclaimed : List Connection
  open_connections : Int
  connecting : Int
  inflight_messages : Int
  max_connections : Int
  max_inflight_messages : Int
deriving Repr, DecidableEq

/-- `Driver.__init__`: empty deque, zero counters, limits 32 / 128. -/
def DriverState.init : DriverState :=
  { reclaimed := []
    open_connections := 0
    connecting := 0
    inflight_messages := 0
    max_connections := 32
    max_inflight_messages := 128 }

/-- `Driver.total_connections`: `self._connecting + self._open_connections`. -/
def DriverState.total_connections (s : DriverState) : Int :=
  s.connecting + s.open_connections

/-- `Connection.close`: close the websocket, set `_closed = True`, then
`self.driver._open_connections -= 1` and clear `_driver`.  When `_driver`
is already `None` the attribute access on `None` raises `AttributeError`
after `_closed` has been set, and the pool counter is left untouched. -/
def Connection.close (c : Connection) (s : DriverState) :
    Except PyError Unit × Connection × DriverState :=
  let c1 : Connection := { c with closed := true }
  if c.has_driver then
    (.ok (), { c1 with has_driver := false },
      { s with open_connections := s.open_connections - 1 })
  else
    (.error (.attributeError "NoneType object has no attribute open_connections"),
      c1, s)

/-- `Driver.connect`: guarded by `total_connections <= max_connections`;
inside the guard `_connecting` is incremented, `ws_connect` is awaited
(`ws_ok` says whether the transport open succeeds), on success
`_open_connections` is incremented and a fresh `Connection` returned, and
the `finally` block decrements `_connecting` on both paths.  Over the
limit a `RuntimeError` is raised with the state untouched. -/
def Driver.connect (s : DriverState) (ws_ok : Bool)
    (force_close recycle : Bool) : Except PyError Connection × DriverState :=
  if s.total_connections ≤ s.max_connections then
    let s1 := { s with connecting := s.connecting + 1 }
    if ws_ok then
      let s2 := { s1 with open_connections := s1.open_connections + 1 }
      (.ok { closed := false, force_close := force_close, recycle := recycle,
             has_driver := true },
        { s2 with connecting := s2.connecting - 1 })
    else
      (.error (.transportError "ws_connect failed"),
        { s1 with connecting := s1.connecting - 1 })
  else
    (.error (.runtimeError "To many connections, try recycling"), s)

/-- The `while self._reclaimed:` loop of `Driver.recycle`: pop from the
left; a live connection breaks out of the loop with the rest of the deque
intact; a closed one decrements `_open_connections` and iterates.  When
the deque drains without a live entry the local `conn` keeps the last
popped (closed) connection, exactly as in the source. -/
def Driver.drain_reclaimed (c : Connection) (rest : List Connection)
    (opn : Int) : Connection × List Connection × Int :=
  if c.closed = false then
    (c, rest, opn)
  else
    match rest with
    | [] => (c, [], opn - 1)
    | c2 :: rest2 => Driver.drain_reclaimed c2 rest2 (opn - 1)

/-- `Driver.recycle`: if the reclaimed deque is non-empty, run the drain
loop; else if `total_connections < max_connections`, fall back to
`Driver.connect`; else `return conn` reads a local that was never
assigned, which raises `UnboundLocalError`. -/
def Driver.recycle (s : DriverState) (ws_ok : Bool)
    (force_close recycle : Bool) : Except PyError Connection × DriverState :=
  match s.reclaimed with
  | c :: rest =>
      let r := Driver.drain_reclaimed c rest s.open_connections
      (.ok r.1, { s with reclaimed := r.2.1, open_connections := r.2.2 })
  | [] =>
      if s.total_connections < s.max_connections then
        Driver.connect s ws_ok force_close recycle
      else
        (.error (.unboundLocalError
          "local variable conn referenced before assignment"), s)

/-- `Driver.reclaim`: at or under the limit, a closed connection is
dropped with `_open_connections -= 1` and a live one is appended to the
reclaimed deque; over the limit, a connection whose `driver is self` is
closed via `Connection.close` (which already decrements the counter) and
then `_open_connections` is decremented once more, while a foreign or
disowned connection is ignored. -/
def Driver.reclaim (s : DriverState) (conn : Connection) :
    Except PyError Unit × DriverState :=
  if s.total_connections ≤ s.max_connections then
    if conn.closed then
      (.ok (), { s with open_connections := s.open_connections - 1 })
    else
      (.ok (), { s with reclaimed := s.reclaimed ++ [conn] })
  else
    if conn.has_driver then
      match Connection.close conn s with
      | (.ok _, _, s1) => (.ok (), { s1 with open_connections := s1.open_connections - 1 })
      | (.error e, _, s1) => (.error e, s1)
    else
      (.ok (), s)

/-- The pool operations named by the invariant claim, each executed
atomically under the pool's mutual-exclusion domain.  `connect` and
`recycle` carry the outcome of the underlying `ws_connect` attempt and the
flags the caller passes; `reclaim` carries the connection handed back. -/
inductive PoolOp where
  | connect (ws_ok force_close recycle : Bool)
  | recycle (ws_ok force_close recycle : Bool)
  | reclaim (conn : Connection)
deriving Repr, DecidableEq

/-- The pool state reached after one operation (the returned value or
exception is dropped; the state is kept on both paths). -/
def PoolOp.step (s : DriverState) : PoolOp → DriverState
  | .connect w fc rc => (Driver.connect s w fc rc).2
  | .recycle w fc rc => (Driver.recycle s w fc rc).2
  | .reclaim c => (Driver.reclaim s c).2

/-- The pool state after a sequence of operations. -/
def PoolOp.run (s : DriverState) (ops : List PoolOp) : DriverState :=
  ops.foldl PoolOp.step s

/-- A decoded server frame as `AsyncResponseIter._parse_data` sees it after
`json.loads`: `status.code`, `result.data`, `status.message`,
`result.meta`.  The payload and metadata are kept opaque as strings. -/
structure RawFrame where
  status_code : Nat
  data : String
  message : String
  meta : String
deriving Repr, DecidableEq

/-- The `Message` namedtuple `("status_code", "data", "message",
"metadata")`. -/
structure Message where
  status_code : Nat
  data : String
  message : String
  metadata : String
deriving Repr, DecidableEq

/-- The state of one `AsyncResponseIter` together with the websocket
frames still to be received, the bound connection, and the owning pool's
state.  `term_count` is a ghost counter recording how many times the
channel-disposition method `term` has run. -/
structure StreamState where
  frames : List RawFrame
  response_queue : List (Option Message)
  closed : Bool
  conn : Option Connection
  driver : DriverState
  force_close : Bool
  recycle : Bool
  username : String
  password : String
  processor : String
  session : Option String
  term_count : Nat
deriving Repr, DecidableEq

/-- `AsyncResponseIter.__init__`: empty response queue, open stream, the
`_force_close` / `_recycle` flags copied from the bound connection. -/
def AsyncResponseIter.init_stream (frames : List RawFrame) (c : Connection)
    (d : DriverState) (username password processor : String)
    (session : Option String) : StreamState :=
  { frames := frames
    response_queue := []
    closed := false
    conn := some c
    driver := d
    force_close := c.force_close
    recycle := c.recycle
    username := username
    password := password
    processor := processor
    session := session
    term_count := 0 }

/-- `AsyncResponseIter.term`: set `_closed = True`, then dispose of the
channel: under `_force_close` run `self.close()` (which closes the bound
connection, mutating it in place, and drops the reference on success);
otherwise under `_recycle` call `self._conn.reclaim()`, which delegates to
`Driver.reclaim` when the connection still has a driver.  A `None`
connection on the recycle path raises `AttributeError`. -/
def AsyncResponseIter.term (s : StreamState) :
    Except PyError Unit × StreamState :=
  let s := { s with closed := true, term_count := s.term_count + 1 }
  if s.force_close then
    match s.conn with
    | some c =>
        match Connection.close c s.driver with
        | (.ok _, _, d) => (.ok (), { s with conn := none, driver := d })
        | (.error e, c1, d) => (.error e, { s with conn := some c1, driver := d })
    | none => (.ok (), s)
  else if s.recycle then
    match s.conn with
    | some c =>
        if c.has_driver then
          match Driver.reclaim s.driver c with
          | (.ok _, d) => (.ok (), { s with driver := d })
          | (.error e, d) => (.error e, { s with driver := d })
        else (.ok (), s)
    | none =>
        (.error (.attributeError "NoneType object has no attribute reclaim"), s)
  else (.ok (), s)

/-- `AsyncResponseIter._parse_data`: receive and decode one frame, then
branch on the status code.  200 / 206 / 204 enqueue the message; the
non-206 codes additionally run `term` and enqueue the `None` end-of-stream
sentinel.  The 407 branch evaluates `self._authenticate`, an attribute
`AsyncResponseIter` does not define, so it raises `AttributeError` before
anything is sent.  Any other code runs `term` and raises `RuntimeError`
with the code and server message. -/
def AsyncResponseIter.parse_data (s : StreamState) :
    Except PyError Unit × StreamState :=
  match s.frames with
  | [] => (.error (.transportError "receive on exhausted stream"), s)
  | f :: rest =>
      let s := { s with frames := rest }
      let m : Message :=
        { status_code := f.status_code, data := f.data,
          message := f.message, metadata := f.meta }
      if f.status_code = 200 ∨ f.status_code = 206 ∨ f.status_code = 204 then
        let s := { s with response_queue := s.response_queue ++ [some m] }
        if f.status_code ≠ 206 then
          match AsyncResponseIter.term s with
          | (.ok _, s1) => (.ok (), { s1 with response_queue := s1.response_queue ++ [none] })
          | (.error e, s1) => (.error e, s1)
        else
          (.ok (), s)
      else if f.status_code = 407 then
        (.error (.attributeError
          "AsyncResponseIter object has no attribute _authenticate"), s)
      else
        match AsyncResponseIter.term s with
        | (.ok _, s1) =>
            (.error (.runtimeError (toString f.status_code ++ " " ++ f.message)), s1)
        | (.error e, s1) => (.error e, s1)

/-- What one `fetch_data` call delivers to the consumer: a queue item
(`some` message or the `none` end sentinel), or a hang — the spawned
`_parse_data` task died with an exception and nothing was ever enqueued,
so `await self._response_queue.get()` blocks forever. -/
inductive FetchOut where
  | got (m : Option Message)
  | hang (e : PyError)
deriving Repr, DecidableEq

/-- `AsyncResponseIter.fetch_data`: take from the queue if non-empty;
otherwise schedule `_parse_data` and wait on the queue.  An exception
inside the scheduled task is swallowed by the event loop, so when the task
enqueued something before dying the consumer still receives it; when it
enqueued nothing the consumer hangs. -/
def AsyncResponseIter.fetch_data (s : StreamState) : FetchOut × StreamState :=
  match s.response_queue with
  | m :: rest => (.got m, { s with response_queue := rest })
  | [] =>
      let r := AsyncResponseIter.parse_data s
      match r.2.response_queue, r.1 with
      | m :: rest, _ => (.got m, { r.2 with response_queue := rest })
      | [], .error e => (.hang e, r.2)
      | [], .ok _ => (.hang (.runtimeError "parse enqueued nothing"), r.2)

/-- The consumer loop over `__anext__`: collect messages until the `None`
sentinel raises `StopAsyncIteration` (a `Message` namedtuple is always
truthy) or the stream hangs; the fuel bounds the number of pulls. -/
def AsyncResponseIter.consume (s : StreamState) :
    Nat → List Message × StreamState × Option PyError
  | 0 => ([], s, none)
  | n + 1 =>
      match AsyncResponseIter.fetch_data s with
      | (.got (some m), s1) =>
          let r := AsyncResponseIter.consume s1 n
          (m :: r.1, r.2)
      | (.got none, s1) => ([], s1, none)
      | (.hang e, s1) => ([], s1, some e)

/-- UTF-8 bytes of a string; the strings the driver encodes here are
ASCII, where each code point is its own byte. -/
def str_bytes (s : String) : List Nat :=
  s.data.map Char.toNat

/-- `Connection._set_message_header`: for `"application/json"` the frame
is the hard-coded length byte `b"\x10"`, the MIME-type-name bytes, then
the body; any other MIME type raises `ValueError` (the spec's
`UnsupportedEncoding`). -/
def Connection.set_message_header (message : List Nat) (mime_type : String) :
    Except PyError (List Nat) :=
  if mime_type = "application/json" then
    .ok ([0x10] ++ str_bytes "application/json" ++ message)
  else
    .error (.valueError "Unknown mime type.")

/-- The request dict built by `Connection._prepare_message` before
serialization: request id, op, processor, and the args mapping (values
kept opaque as strings, in insertion order). -/
structure RequestMessage where
  request_id : String
  op : String
  processor : String
  args : List (String × String)
deriving Repr, DecidableEq

/-- `Connection._finalize_message`: for the `"session"` processor a
`None` session id raises `RuntimeError` (the spec's `InvalidRequest`)
before anything is serialized; otherwise the session id is added to the
args and the message is serialized (`json.dumps` is the injected `dumps`
primitive) and framed by `Connection.set_message_header`. -/
def Connection.finalize_message (dumps : RequestMessage → String)
    (message : RequestMessage) (processor : String) (session : Option String) :
    Except PyError (List Nat) :=
  if processor = "session" then
    match session with
    | none => .error (.runtimeError "session processor requires a session id")
    | some sid =>
        Connection.set_message_header
          (str_bytes (dumps { message with args := message.args ++ [("session", sid)] }))
          "application/json"
  else
    Connection.set_message_header (str_bytes (dumps message)) "application/json"

/-- `Connection._prepare_message`: build the request dict with the
`gremlin` / `bindings` / `language` / `aliases` args and finalize it. -/
def Connection.prepare_message (dumps : RequestMessage → String)
    (gremlin bindings lang aliases op processor : String)
    (session : Option String) (request_id : String) :
    Except PyError (List Nat) :=
  Connection.finalize_message dumps
    { request_id := request_id
      op := op
      processor := processor
      args := [("gremlin", gremlin), ("bindings", bindings),
               ("language", lang), ("aliases", aliases)] }
    processor session

/-- `Connection.submit`: prepare the message, then `send_bytes` it.  The
second component lists the frames actually sent on the websocket: a
validation failure in `_prepare_message` propagates before any send
happens. -/
def Connection.submit (dumps : RequestMessage → String)
    (gremlin bindings lang aliases op processor : String)
    (session : Option String) (request_id : String) :
    Except PyError Unit × List (List Nat) :=
  match Connection.prepare_message dumps gremlin bindings lang aliases op
      processor session request_id with
  | .error e => (.error e, [])
  | .ok frame => (.ok (), [frame])

/-! Concrete fixtures used by the theorems below. -/

/-- A live pooled connection acquired through the recycle path
(`force_close=False, recycle=True`). -/
def conn0 : Connection :=
  { closed := false, force_close := false, recycle := true, has_driver := true }

/-- A connection whose `close` has already run: `_closed = True` and the
`_driver` back-reference cleared. -/
def dead_conn : Connection :=
  { closed := true, force_close := false, recycle := true, has_driver := false }

/-- A reclaimed connection that was closed while sitting in the deque
(still counted in `_open_connections`, still holding its driver). -/
def stale_conn : Connection :=
  { closed := true, force_close := false, recycle := true, has_driver := true }

/-- Pool state with one open connection. -/
def d_one : DriverState := { DriverState.init with open_connections := 1 }

/-- Pool state at capacity: 32 open connections, empty reclaimed deque. -/
def d_full : DriverState := { DriverState.init with open_connections := 32 }

/-- Pool state over capacity (reachable: `Driver.connect` admits while
`total_connections ≤ 32`, so a 33rd connect succeeds). -/
def d_over : DriverState := { DriverState.init with open_connections := 33 }

/-- Pool state whose reclaimed deque holds exactly one stale (closed)
connection, counted in `_open_connections`. -/
def d_stale : DriverState :=
  { DriverState.init with open_connections := 1, reclaimed := [stale_conn] }

/-- A response stream over the given frames, bound to `conn0` in the
one-connection pool. -/
def stream0 (frames : List RawFrame) : StreamState :=
  AsyncResponseIter.init_stream frames conn0 d_one "user" "pass" "" none

/-- A partial-result frame (status 206) with payload `d`. -/
def frame206 (d : String) : RawFrame :=
  { status_code := 206, data := d, message := "", meta := "" }

/-- A terminal success frame (status 200) with payload `d`. -/
def frame200 (d : String) : RawFrame :=
  { status_code := 200, data := d, message := "", meta := "" }

/-- A no-content terminal frame (status 204). -/
def frame204 : RawFrame :=
  { status_code := 204, data := "", message := "", meta := "" }

/-- An authentication-challenge frame (status 407). -/
def frame407 : RawFrame :=
  { status_code := 407, data := "", message := "", meta := "" }

/-- A concrete serialization primitive standing in for `json.dumps` in
closed statements. -/
def dumps0 : RequestMessage → String := fun _ => "serialized"

/-! Helper lemmas for the pool invariant. -/

/-- The drain loop of `Driver.recycle` never increases
`_open_connections`. -/
theorem Driver.drain_reclaimed_opn_le (rest : List Connection)
    (c : Connection) (opn : Int) :
    (Driver.drain_reclaimed c rest opn).2.2 ≤ opn := by
  induction rest generalizing c opn with
  | nil =>
      unfold Driver.drain_reclaimed
      split
      · exact le_refl _
      · show opn - 1 ≤ opn
        omega
  | cons c2 rest2 ih =>
      unfold Driver.drain_reclaimed
      split
      · exact le_refl _
      · exact le_trans (ih c2 (opn - 1)) (by omega)

/-- `Connection.close` leaves `max_connections` unchanged. -/
theorem Connection.close_max (c : Connection) (s : DriverState) :
    (Connection.close c s).2.2.max_connections = s.max_connections := by
  unfold Connection.close
  split <;> rfl

/-- `Driver.connect` leaves `max_connections` unchanged. -/
theorem Driver.connect_max (s : DriverState) (w fc rc : Bool) :
    (Driver.connect s w fc rc).2.max_connections = s.max_connections := by
  unfold Driver.connect
  split
  · split <;> rfl
  · rfl

/-- `Driver.recycle` leaves `max_connections` unchanged. -/
theorem Driver.recycle_max (s : DriverState) (w fc rc : Bool) :
    (Driver.recycle s w fc rc).2.max_connections = s.max_connections := by
  unfold Driver.recycle
  split
  · rfl
  · split
    · exact Driver.connect_max s w fc rc
    · rfl

/-- `Driver.reclaim` leaves `max_connections` unchanged. -/
theorem Driver.reclaim_max (s : DriverState) (c : Connection) :
    (Driver.reclaim s c).2.max_connections = s.max_connections := by
  unfold Driver.reclaim
  split
  · split <;> rfl
  · split
    · rcases hcl : Connection.close c s with ⟨r, c1, s1⟩
      have hm := Connection.close_max c s
      rw [hcl] at hm
      cases r <;> exact hm
    · rfl

/-- One pool operation leaves `max_connections` unchanged. -/
theorem PoolOp.step_max (s : DriverState) (op : PoolOp) :
    (PoolOp.step s op).max_connections = s.max_connections := by
  cases op with
  | connect w fc rc => exact Driver.connect_max s w fc rc
  | recycle w fc rc => exact Driver.recycle_max s w fc rc
  | reclaim c => exact Driver.reclaim_max s c

/-- `Driver.connect` keeps `connecting + open ≤ max + 1`: it admits only
when `total_connections ≤ max_connections` and then adds at most one. -/
theorem Driver.connect_total (s : DriverState) (w fc rc : Bool)
    (h : s.total_connections ≤ s.max_connections + 1) :
    (Driver.connect s w fc rc).2.total_connections ≤ s.max_connections + 1 := by
  unfold Driver.connect
  split
  · split
    · simp only [DriverState.total_connections] at *
      show s.connecting + 1 - 1 + (s.open_connections + 1) ≤ s.max_connections + 1
      omega
    · simp only [DriverState.total_connections] at *
      show s.connecting + 1 - 1 + s.open_connections ≤ s.max_connections + 1
      omega
  · exact h

/-- `Driver.recycle` keeps `connecting + open ≤ max + 1`: the drain loop
only decrements `open`, and the fallback calls `Driver.connect` under the
strict `total_connections < max_connections` guard. -/
theorem Driver.recycle_total (s : DriverState) (w fc rc : Bool)
    (h : s.total_connections ≤ s.max_connections + 1) :
    (Driver.recycle s w fc rc).2.total_connections ≤ s.max_connections + 1 := by
  unfold Driver.recycle
  split
  · next c rest heq =>
      have hd := Driver.drain_reclaimed_opn_le rest c s.open_connections
      simp only [DriverState.total_connections] at *
      show s.connecting + (Driver.drain_reclaimed c rest s.open_connections).2.2
          ≤ s.max_connections + 1
      omega
  · split
    · exact Driver.connect_total s w fc rc h
    · exact h

/-- `Driver.reclaim` keeps `connecting + open ≤ max + 1`: every branch
either decrements `open` or leaves the counters alone. -/
theorem Driver.reclaim_total (s : DriverState) (c : Connection)
    (h : s.total_connections ≤ s.max_connections + 1) :
    (Driver.reclaim s c).2.total_connections ≤ s.max_connections + 1 := by
  unfold Driver.reclaim
  split
  · split
    · simp only [DriverState.total_connections] at *
      show s.connecting + (s.open_connections - 1) ≤ s.max_connections + 1
      omega
    · exact h
  · split
    · next hd =>
        simp only [Connection.close, hd, if_true]
        simp only [DriverState.total_connections] at *
        show s.connecting + (s.open_connections - 1 - 1) ≤ s.max_connections + 1
        omega
    · exact h

/-- One pool operation keeps `connecting + open ≤ max + 1`. -/
theorem PoolOp.step_total (s : DriverState) (op : PoolOp)
    (h : s.total_connections ≤ s.max_connections + 1) :
    (PoolOp.step s op).total_connections ≤ (PoolOp.step s op).max_connections + 1 := by
  rw [PoolOp.step_max]
  cases op with
  | connect w fc rc => exact Driver.connect_total s w fc rc h
  | recycle w fc rc => exact Driver.recycle_total s w fc rc h
  | reclaim c => exact Driver.reclaim_total s c h

/-- The invariant `connecting + open ≤ max + 1` is preserved by every
operation sequence. -/
theorem PoolOp.run_total (ops : List PoolOp) (s : DriverState)
    (h : s.total_connections ≤ s.max_connections + 1) :
    (PoolOp.run s ops).total_connections ≤ (PoolOp.run s ops).max_connections + 1 := by
  induction ops generalizing s with
  | nil => exact h
  | cons op rest ih =>
      exact ih (PoolOp.step s op) (PoolOp.step_total s op h)

/-- `max_connections` is constant along every operation sequence. -/
theorem PoolOp.run_max (ops : List PoolOp) (s : DriverState) :
    (PoolOp.run s ops).max_connections = s.max_connections := by
  induction ops generalizing s with
  | nil => rfl
  | cons op rest ih =>
      calc (PoolOp.run (PoolOp.step s op) rest).max_connections
          = (PoolOp.step s op).max_connections := ih (PoolOp.step s op)
        _ = s.max_connections := PoolOp.step_max s op

/-! The claims. -/

/-- C1 (amended): under the pool's single mutual-exclusion domain,
`connecting + open` never exceeds `maxConnections + 1` along any sequence
of connect / recycleOrAcquire / reclaim operations.  The bound is
`maxConnections + 1`, not `maxConnections`, because `Driver.connect`
admits a new connection while `total_connections ≤ max_connections`
rather than strictly below it. -/
theorem C1_pool_bound (ops : List PoolOp) :
    (PoolOp.run DriverState.init ops).total_connections
      ≤ DriverState.init.max_connections + 1 := by
  have h := PoolOp.run_total ops DriverState.init (by decide)
  rw [PoolOp.run_max ops DriverState.init] at h
  exact h

set_option maxRecDepth 4000 in
/-- C1 counterexample: 33 successful `connect` calls from the initial
pool (maxConnections = 32) drive `connecting + open` to 33, exceeding
`maxConnections`, because the admission check is `total ≤ max`. -/
theorem C1_counterexample :
    (PoolOp.run DriverState.init
        (List.replicate 33 (PoolOp.connect true true false))).total_connections
      > (PoolOp.run DriverState.init
        (List.replicate 33 (PoolOp.connect true true false))).max_connections := by
  decide

/-- C2: with the reclaimed deque holding a single closed connection,
`Driver.recycle` decrements `open` for the discard but then returns that
same closed connection to the caller — the drain loop's `break` only fires
on a live entry, and when the deque empties the local still holds the last
(closed) connection, which `return conn` hands back. -/
theorem C2_recycle_returns_closed :
    (Driver.recycle d_stale true false true).1 = .ok stale_conn
    ∧ stale_conn.closed = true
    ∧ (Driver.recycle d_stale true false true).2.open_connections = 0 :=
  ⟨rfl, rfl, rfl⟩

/-- C3: with the reclaimed deque empty and the pool at capacity
(`total_connections = max_connections = 32`), `Driver.recycle` neither
drains nor falls back to `connect`, and `return conn` reads the local
`conn` that was never assigned: an `UnboundLocalError`, not the
`PoolExhausted` failure the corrected contract requires. -/
theorem C3_recycle_unbound_local :
    Driver.recycle d_full true false true
      = (.error (.unboundLocalError
          "local variable conn referenced before assignment"), d_full) :=
  rfl

/-- C4 counterexample: in an over-limit pool (33 open, max 32) releasing
a live pool-owned channel decrements `open` by two, not by one —
`Connection.close` already notifies the pool before `Driver.reclaim`
decrements again. -/
theorem C4_counterexample :
    (Driver.reclaim d_over conn0).2.open_connections
        ≠ d_over.open_connections - 1
    ∧ (Driver.reclaim d_over conn0).2.open_connections
        = d_over.open_connections - 2 := by
  constructor
  · decide
  · decide

/-- C4 (amended): for every pool-owned Channel passed to release: if
`connecting + open ≤ maxConnections` then a closed Channel causes `open`
to be decremented by exactly one and the Channel dropped, while a live
Channel is pushed onto the reclaimed-idle queue; if over the limit, the
Channel is forcibly closed and `open` is decremented by exactly two in
total (once inside `Connection.close` and once more by `Driver.reclaim`),
regardless of its recycle flag. -/
theorem C4_reclaim_spec (s : DriverState) (c : Connection)
    (hOwn : c.has_driver = true) :
    (s.total_connections ≤ s.max_connections →
       (c.closed = true →
          Driver.reclaim s c
            = (.ok (), { s with open_connections := s.open_connections - 1 }))
       ∧ (c.closed = false →
          Driver.reclaim s c
            = (.ok (), { s with reclaimed := s.reclaimed ++ [c] })))
    ∧ (s.max_connections < s.total_connections →
       Driver.reclaim s c
         = (.ok (), { s with open_connections := s.open_connections - 2 })) := by
  constructor
  · intro hle
    constructor
    · intro hc
      unfold Driver.reclaim
      rw [if_pos hle, if_pos hc]
    · intro hc
      unfold Driver.reclaim
      rw [if_pos hle, if_neg (by simp [hc])]
  · intro hgt
    unfold Driver.reclaim
    rw [if_neg (not_le.mpr hgt), if_pos hOwn]
    have h2 : s.open_connections - 1 - 1 = s.open_connections - 2 := by omega
    simp [Connection.close, hOwn, h2]

/-- Witness for C4: the three branches at concrete inputs — a closed
channel released under the limit, a live one released under the limit,
and a live one released over the limit. -/
theorem C4_witness :
    Driver.reclaim d_one stale_conn
      = (.ok (), { d_one with open_connections := 0 })
    ∧ Driver.reclaim d_one conn0
      = (.ok (), { d_one with reclaimed := [conn0] })
    ∧ Driver.reclaim d_over conn0
      = (.ok (), { d_over with open_connections := 31 }) :=
  ⟨((C4_reclaim_spec d_one stale_conn rfl).1 (by decide)).1 rfl,
   ((C4_reclaim_spec d_one conn0 rfl).1 (by decide)).2 rfl,
   (C4_reclaim_spec d_over conn0 rfl).2 (by decide)⟩

/-- C5 counterexample: on the frame sequence [204] the stream yields one
data result, not zero — `_parse_data` enqueues the message for status 204
just as for 200/206. -/
theorem C5_counterexample :
    (AsyncResponseIter.consume (stream0 [frame204]) 3).1.length ≠ 0 := by
  decide

/-- C5 (amended): for [206, 206, 200] the ResponseStream yields exactly
three data results in order and the third triggers channel disposition
(`term_count` is still 0 after two pulls and 1 at the end, with a clean
end-of-stream); for [204] it yields exactly one data result — the 204
frame is buffered and yielded like a 200 — and immediately triggers
disposition and end-of-stream. -/
theorem C5_stream_spec (d1 d2 d3 : String) :
    (AsyncResponseIter.consume
        (stream0 [frame206 d1, frame206 d2, frame200 d3]) 5).1
      = [⟨206, d1, "", ""⟩, ⟨206, d2, "", ""⟩, ⟨200, d3, "", ""⟩]
    ∧ (AsyncResponseIter.consume
        (stream0 [frame206 d1, frame206 d2, frame200 d3]) 5).2.2 = none
    ∧ (AsyncResponseIter.consume
        (stream0 [frame206 d1, frame206 d2, frame200 d3]) 5).2.1.term_count = 1
    ∧ (AsyncResponseIter.consume
        (stream0 [frame206 d1, frame206 d2, frame200 d3]) 2).2.1.term_count = 0
    ∧ (AsyncResponseIter.consume (stream0 [frame204]) 3).1 = [⟨204, "", "", ""⟩]
    ∧ (AsyncResponseIter.consume (stream0 [frame204]) 3).2.1.term_count = 1
    ∧ (AsyncResponseIter.consume (stream0 [frame204]) 3).2.2 = none :=
  ⟨rfl, rfl, rfl, rfl, rfl, rfl, rfl⟩

/-- C6: on the frame sequence [407, 200] the consumer observes no data
result and no authentication exchange: the 407 branch of `_parse_data`
evaluates `self._authenticate`, an attribute `AsyncResponseIter` does not
define, so the parse task dies with `AttributeError` before anything is
sent and the consumer's queue wait never completes. -/
theorem C6_auth_crash :
    (AsyncResponseIter.consume (stream0 [frame407, frame200 "result"]) 5).1 = []
    ∧ (AsyncResponseIter.consume (stream0 [frame407, frame200 "result"]) 5).2.2
        = some (.attributeError
            "AsyncResponseIter object has no attribute _authenticate") :=
  ⟨rfl, rfl⟩

/-- C7: the encoded wire frame is a single length byte whose value (16)
is the byte length of the MIME-type name, then the MIME-type-name bytes,
then the body bytes; any MIME type other than "application/json" fails
with the `ValueError` the spec calls `UnsupportedEncoding`, producing no
frame. -/
theorem C7_set_message_header_spec (body : List Nat) (mt : String) :
    (str_bytes "application/json").length = 16
    ∧ (mt = "application/json" →
        Connection.set_message_header body mt
          = .ok ([(str_bytes "application/json").length]
              ++ str_bytes "application/json" ++ body))
    ∧ (mt ≠ "application/json" →
        Connection.set_message_header body mt
          = .error (.valueError "Unknown mime type.")) := by
  refine ⟨by decide, ?_, ?_⟩
  · intro hmt
    subst hmt
    unfold Connection.set_message_header
    rw [if_pos rfl]
    have hlen : (str_bytes "application/json").length = 16 := by decide
    rw [hlen]
  · intro hmt
    unfold Connection.set_message_header
    rw [if_neg hmt]

/-- Witness for C7: a two-byte body framed under "application/json" and
rejected under "text/plain". -/
theorem C7_witness :
    Connection.set_message_header [104, 105] "application/json"
      = .ok ([(str_bytes "application/json").length]
          ++ str_bytes "application/json" ++ [104, 105])
    ∧ Connection.set_message_header [104, 105] "text/plain"
      = .error (.valueError "Unknown mime type.") :=
  ⟨(C7_set_message_header_spec [104, 105] "application/json").2.1 rfl,
   (C7_set_message_header_spec [104, 105] "text/plain").2.2 (by decide)⟩

/-- C8 counterexample: a submit with processor "session" and the empty
string as session id does not fail — `_finalize_message` only rejects a
`None` session — and a frame is sent. -/
theorem C8_counterexample :
    (Connection.submit dumps0 "g.V()" "" "gremlin-groovy" "" "eval" "session"
        (some "") "rid").1 = .ok ()
    ∧ (Connection.submit dumps0 "g.V()" "" "gremlin-groovy" "" "eval" "session"
        (some "") "rid").2.length = 1 :=
  ⟨rfl, rfl⟩

/-- C8 (amended): a submit with processor "session" and an absent (None)
session id fails with the `RuntimeError` the spec calls `InvalidRequest`
before any bytes are sent; any present session id — including the empty
string — is accepted and included in the request args of the one frame
sent. -/
theorem C8_session_spec (dumps : RequestMessage → String)
    (gremlin bindings lang aliases op request_id : String)
    (session : Option String) :
    (session = none →
       Connection.submit dumps gremlin bindings lang aliases op "session"
           session request_id
         = (.error (.runtimeError "session processor requires a session id"), []))
    ∧ (∀ sid : String, session = some sid →
       Connection.submit dumps gremlin bindings lang aliases op "session"
           session request_id
         = (.ok (), [[0x10] ++ str_bytes "application/json"
             ++ str_bytes (dumps
               { request_id := request_id, op := op, processor := "session",
                 args := [("gremlin", gremlin), ("bindings", bindings),
                          ("language", lang), ("aliases", aliases),
                          ("session", sid)] })])) := by
  constructor
  · intro hs
    subst hs
    rfl
  · intro sid hs
    subst hs
    rfl

/-- Witness for C8: an absent session id is rejected with nothing sent; a
concrete session id lands in the args of the single sent frame. -/
theorem C8_witness :
    Connection.submit dumps0 "g" "b" "l" "a" "eval" "session" none "rid"
      = (.error (.runtimeError "session processor requires a session id"), [])
    ∧ Connection.submit dumps0 "g" "b" "l" "a" "eval" "session" (some "s1") "rid"
      = (.ok (), [[0x10] ++ str_bytes "application/json"
          ++ str_bytes (dumps0
            { request_id := "rid", op := "eval", processor := "session",
              args := [("gremlin", "g"), ("bindings", "b"),
                       ("language", "l"), ("aliases", "a"),
                       ("session", "s1")] })]) :=
  ⟨(C8_session_spec dumps0 "g" "b" "l" "a" "eval" "rid" none).1 rfl,
   (C8_session_spec dumps0 "g" "b" "l" "a" "eval" "rid" (some "s1")).2 "s1" rfl⟩

/-- C9 counterexample: closing the same connection twice is not a no-op —
the second close raises `AttributeError` (the `_driver` back-reference was
cleared by the first close, and `None` has no `_open_connections`), though
it indeed does not decrement the pool's open count again. -/
theorem C9_counterexample :
    (Connection.close (Connection.close conn0 d_one).2.1
        (Connection.close conn0 d_one).2.2).1
      = .error (.attributeError "NoneType object has no attribute open_connections")
    ∧ (Connection.close (Connection.close conn0 d_one).2.1
        (Connection.close conn0 d_one).2.2).2.2.open_connections
      = (Connection.close conn0 d_one).2.2.open_connections :=
  ⟨rfl, rfl⟩

/-- C9 (amended): `Connection.close` on a connection that still holds its
driver closes the transport, sets `closed = true`, clears the driver
back-reference and decrements the pool's open count by exactly one; a
second close (driver reference already cleared) is not a no-op: it fails
with `AttributeError`, setting `closed` again but leaving the pool's open
count untouched. -/
theorem C9_close_spec (c : Connection) (s : DriverState) :
    (c.has_driver = true →
       Connection.close c s
         = (.ok (), { c with closed := true, has_driver := false },
            { s with open_connections := s.open_connections - 1 }))
    ∧ (c.has_driver = false →
       Connection.close c s
         = (.error (.attributeError
              "NoneType object has no attribute open_connections"),
            { c with closed := true }, s)) := by
  constructor
  · intro hd
    unfold Connection.close
    rw [if_pos hd]
  · intro hd
    unfold Connection.close
    rw [if_neg (by simp [hd])]

/-- Witness for C9: first close of a pooled connection succeeds and
decrements the counter to 0; close of an already-disowned connection
fails. -/
theorem C9_witness :
    Connection.close conn0 d_one
      = (.ok (), { conn0 with closed := true, has_driver := false },
         { d_one with open_connections := 0 })
    ∧ Connection.close dead_conn d_one
      = (.error (.attributeError
           "NoneType object has no attribute open_connections"),
         { dead_conn with closed := true }, d_one) :=
  ⟨(C9_close_spec conn0 d_one).1 rfl, (C9_close_spec dead_conn d_one).2 rfl⟩

/-- C10: when `ws_connect` raises during an admitted `Driver.connect`,
the `finally` block restores `_connecting` to its prior value,
`_open_connections` is not incremented, no Connection is created, and the
transport error propagates: the pool state is exactly the pre-call
state. -/
theorem C10_connect_ws_failure (s : DriverState) (fc rc : Bool)
    (h : s.total_connections ≤ s.max_connections) :
    Driver.connect s false fc rc
      = (.error (.transportError "ws_connect failed"), s) := by
  unfold Driver.connect
  rw [if_pos h]
  show (Except.error (PyError.transportError "ws_connect failed"),
      { s with connecting := s.connecting + 1 - 1 })
    = (Except.error (PyError.transportError "ws_connect failed"), s)
  have h1 : s.connecting + 1 - 1 = s.connecting := by omega
  rw [h1]

/-- Witness for C10: a failed transport open from the initial pool leaves
it exactly at the initial state. -/
theorem C10_witness :
    Driver.connect DriverState.init false true false
      = (.error (.transportError "ws_connect failed"), DriverState.init) :=
  C10_connect_ws_failure DriverState.init true false (by decide)
